import Mathlib

/-!
A shallow embedding of the connection, credential and interactive-shell
session manager of `src/index.ts` (an MCP server exposing SSH tools).

Modelling conventions:
* JavaScript strings are Lean `String`; JavaScript string truthiness
  (`if (s)`) is `truthy` below (false exactly on a missing or empty string).
* `Map<string, α>` is an insertion-ordered association list (`JSMap`); its
  `get`/`set`/`has`/`delete` mirror the `Map` prototype methods.
* The external transport objects (`NodeSSH` clients, `ClientChannel`
  handles) are opaque numeric tokens; the outcomes of their effectful calls
  (`ssh.connect`, `ssh.dispose`, `ssh.requestShell`, `fs.readFile`) are
  explicit `Except String _` parameters of the handlers.
* Every tool handler becomes a function from the global server state and
  its parsed parameters to the new state paired with `Except McpError` of
  its result, mirroring the throw-before-mutation structure of the source;
  an error result leaves the returned state exactly as the source leaves
  the global maps on that path.
* The events a shell channel fires (`data`, `close`) are `SessEvent`; the
  hooks registered by `handleStartInteractiveShell` are `applyEvent`, and
  the promise inside `handleReadOutput` (immediate resolve on a non-empty
  buffer, else a race of the `once('data')` listener against the timer) is
  `readPromise`, applied to the list of events the channel delivers during
  the timeout window.
-/

namespace McpSsh

/-- JavaScript string truthiness of an optional string field: `undefined`
and the empty string are falsy, every other string is truthy. -/
def truthy : Option String → Bool
  | none => false
  | some s => !s.isEmpty

/-- Insertion-ordered string-keyed map, the model of a JavaScript `Map`. -/
abbrev JSMap (α : Type) := List (String × α)

namespace JSMap

/-- `Map.prototype.get`. -/
def get {α : Type} : JSMap α → String → Option α
  | [], _ => none
  | (k, v) :: m, key => if k = key then some v else get m key

/-- `Map.prototype.has`. -/
def has {α : Type} (m : JSMap α) (key : String) : Bool :=
  (get m key).isSome

/-- `Map.prototype.set`: replaces in place when the key is present,
appends otherwise. -/
def set {α : Type} : JSMap α → String → α → JSMap α
  | [], key, v => [(key, v)]
  | (k, w) :: m, key, v =>
    if k = key then (key, v) :: m else (k, w) :: set m key v

/-- `Map.prototype.delete` (the source discards the returned Boolean). -/
def delete {α : Type} : JSMap α → String → JSMap α
  | [], _ => []
  | (k, w) :: m, key => if k = key then m else (k, w) :: delete m key

theorem get_set_self {α : Type} (m : JSMap α) (key : String) (v : α) :
    get (set m key v) key = some v := by
  induction m with
  | nil => simp [set, get]
  | cons p m ih =>
    obtain ⟨k, w⟩ := p
    by_cases h : k = key
    · simp [set, get, h]
    · simp [set, get, h, ih]

theorem set_eq_of_get {α : Type} (m : JSMap α) (key : String) (v : α)
    (h : get m key = some v) : set m key v = m := by
  induction m with
  | nil => simp [get] at h
  | cons p m ih =>
    obtain ⟨k, w⟩ := p
    by_cases hk : k = key
    · subst hk
      simp [get] at h
      simp [set, h]
    · simp [get, hk] at h
      simp [set, hk, ih h]

theorem has_of_get {α : Type} (m : JSMap α) (key : String) (v : α)
    (h : get m key = some v) : has m key = true := by
  simp [has, h]

end JSMap

/-- The MCP error codes the handlers use. -/
inductive ErrorCode where
  | invalidParams
  | internalError
  | methodNotFound
deriving DecidableEq, Repr

/-- The JSON-RPC numeric value of each code, as the SDK defines it. -/
def ErrorCode.toInt : ErrorCode → Int
  | .invalidParams => -32602
  | .internalError => -32603
  | .methodNotFound => -32601

/-- `McpError(code, message)` as thrown by the handlers. -/
structure McpError where
  code : ErrorCode
  message : String
deriving DecidableEq, Repr

/-- The `Error.message` of a thrown `McpError`: the SDK prefixes the code. -/
def McpError.jsMessage (e : McpError) : String :=
  s!"MCP error {e.code.toInt}: {e.message}"

/-- An error caught inside a handler's `try` block: either a rethrown
`McpError` or a plain JavaScript error carrying a message. -/
inductive TryError where
  | mcp (e : McpError)
  | js (message : String)
deriving DecidableEq, Repr

/-- The `error.message` the `catch` clause sees. -/
def TryError.messageOf : TryError → String
  | .mcp e => e.jsMessage
  | .js m => m

/-- An established `NodeSSH` client, opaque to the manager. -/
abbrev NodeSSH := Nat

/-- Working-directory context kept per connection (`connectionContexts`). -/
structure ConnectionContext where
  ssh : NodeSSH
  currentWorkingDirectory : Option String
  defaultWorkingDirectory : Option String
deriving DecidableEq, Repr

/-- A stored credential (`credentialStore` entries). -/
structure StoredCredential where
  host : String
  port : Nat
  username : String
  password : Option String
  privateKeyPath : Option String
  passphrase : Option String
  createdAt : String
  lastUsed : String
deriving DecidableEq, Repr

/-- An interactive shell session (`shellSessions` entries); the
`EventEmitter` is not state, its signalling is modelled by `readPromise`. -/
structure ShellSession where
  shell : Nat
  ssh : NodeSSH
  buffer : String
  isActive : Bool
deriving DecidableEq, Repr

/-- The four global maps of `src/index.ts`. -/
structure ServerState where
  connectionPool : JSMap NodeSSH
  connectionContexts : JSMap ConnectionContext
  credentialStore : JSMap StoredCredential
  shellSessions : JSMap ShellSession
deriving DecidableEq, Repr

/-- `ConnectSSHSchema` after parsing (`port` already defaulted to 22). -/
structure ConnectParams where
  host : String
  port : Nat
  username : String
  password : Option String
  privateKeyPath : Option String
  passphrase : Option String
  connectionId : String
deriving DecidableEq, Repr

/-- The `connectConfig` object `handleSSHConnect` builds before calling
`ssh.connect`; a field never assigned stays `none`. -/
structure ConnectConfig where
  host : String
  port : Nat
  username : String
  privateKey : Option String
  passphrase : Option String
  password : Option String
deriving DecidableEq, Repr

/-- The config of the private-key branch: the key file contents, the
passphrase when truthy, never the password. -/
def keyConfig (host : String) (port : Nat) (username : String)
    (privateKey : String) (passphrase : Option String) : ConnectConfig :=
  { host := host, port := port, username := username,
    privateKey := some privateKey,
    passphrase := if truthy passphrase then passphrase else none,
    password := none }

/-- The config of the password branch: the password only. -/
def passwordConfig (host : String) (port : Nat) (username : String)
    (password : Option String) : ConnectConfig :=
  { host := host, port := port, username := username,
    privateKey := none, passphrase := none, password := password }

/-- Outcomes of the external effects of a connect handler: the fresh
`new NodeSSH()` token, `fs.readFile(privateKeyPath)`, and `ssh.connect`
on the config the handler built. -/
structure ConnectEffects where
  handle : NodeSSH
  readKey : Except String String
  connect : ConnectConfig → Except String Unit

/-- The body of the `try` block of `handleSSHConnect` (lines 551-590):
chooses the authentication branch by JavaScript truthiness
(`if (params.privateKeyPath) ... else if (params.password) ... else throw`),
connects, and on success inserts the connection and a fresh context. -/
def sshConnectBody (st : ServerState) (p : ConnectParams)
    (eff : ConnectEffects) : Except TryError ServerState :=
  let register : ServerState :=
    { st with
      connectionPool := JSMap.set st.connectionPool p.connectionId eff.handle,
      connectionContexts := JSMap.set st.connectionContexts p.connectionId
        ⟨eff.handle, none, none⟩ }
  if truthy p.privateKeyPath then
    match eff.readKey with
    | .error e => .error (.js e)
    | .ok privateKey =>
      match eff.connect
          (keyConfig p.host p.port p.username privateKey p.passphrase) with
      | .error e => .error (.js e)
      | .ok _ => .ok register
  else if truthy p.password then
    match eff.connect (passwordConfig p.host p.port p.username p.password) with
    | .error e => .error (.js e)
    | .ok _ => .ok register
  else
    .error (.mcp ⟨.invalidParams,
      "Either password or privateKeyPath must be provided"⟩)

/-- `handleSSHConnect` (lines 539-597): duplicate-id check, then the `try`
body; its `catch` wraps every error — a thrown `McpError` included — as
`InternalError` with the `SSH connection failed:` prefix. -/
def handleSSHConnect (st : ServerState) (p : ConnectParams)
    (eff : ConnectEffects) : ServerState × Except McpError String :=
  if JSMap.has st.connectionPool p.connectionId then
    (st, .error ⟨.invalidParams,
      s!"Connection ID '{p.connectionId}' already exists"⟩)
  else
    match sshConnectBody st p eff with
    | .ok st' =>
      (st', .ok s!"Successfully connected to {p.host}:{p.port} as {p.username} (Connection ID: {p.connectionId})")
    | .error e =>
      (st, .error ⟨.internalError,
        "SSH connection failed: " ++ TryError.messageOf e⟩)

/-- `DisconnectSSHSchema` is just the connection id.  `handleSSHDisconnect`
(lines 599-624): `ssh.dispose()` is not guarded by any `try`, so a dispose
error escapes the handler (the dispatcher's catch-all wraps it as
`InternalError` with the `Tool execution failed:` prefix, lines 527-535)
and neither map is touched; only a successful dispose reaches the deletes. -/
def handleSSHDisconnect (st : ServerState) (connectionId : String)
    (dispose : Except String Unit) : ServerState × Except McpError String :=
  match JSMap.get st.connectionPool connectionId with
  | none =>
    (st, .error ⟨.invalidParams,
      s!"Connection ID '{connectionId}' not found"⟩)
  | some _ssh =>
    match dispose with
    | .error e =>
      (st, .error ⟨.internalError, "Tool execution failed: " ++ e⟩)
    | .ok _ =>
      ({ st with
         connectionPool := JSMap.delete st.connectionPool connectionId,
         connectionContexts := JSMap.delete st.connectionContexts connectionId },
       .ok s!"Disconnected from {connectionId}")

/-- `SaveCredentialSchema` after parsing (`port` defaulted to 22). -/
structure SaveCredentialParams where
  credentialId : String
  host : String
  port : Nat
  username : String
  password : Option String
  privateKeyPath : Option String
  passphrase : Option String
deriving DecidableEq, Repr

/-- `handleSaveCredential` (lines 1087-1125): duplicate-id check, then the
truthiness check `!params.password && !params.privateKeyPath`, then the
insert; `params.port || 22` re-defaults a zero port.  `now` is
`new Date().toISOString()`. -/
def handleSaveCredential (st : ServerState) (p : SaveCredentialParams)
    (now : String) : ServerState × Except McpError String :=
  if JSMap.has st.credentialStore p.credentialId then
    (st, .error ⟨.invalidParams,
      s!"Credential ID '{p.credentialId}' already exists"⟩)
  else if !truthy p.password && !truthy p.privateKeyPath then
    (st, .error ⟨.invalidParams,
      "Either password or privateKeyPath must be provided"⟩)
  else
    let credential : StoredCredential :=
      { host := p.host, port := if p.port = 0 then 22 else p.port,
        username := p.username, password := p.password,
        privateKeyPath := p.privateKeyPath, passphrase := p.passphrase,
        createdAt := now, lastUsed := now }
    ({ st with
       credentialStore := JSMap.set st.credentialStore p.credentialId credential },
     .ok s!"Credential '{p.credentialId}' saved successfully")

/-- An event the underlying channel fires at a session. -/
inductive SessEvent where
  | data (text : String)
  | closed
deriving DecidableEq, Repr

/-- The hooks `handleStartInteractiveShell` registers (lines 929-938): the
`data` hook appends the chunk to the session's buffer (and emits on the
notification emitter), the `close` hook sets `isActive` to false (and
emits `close`). -/
def applyEvent (s : ShellSession) : SessEvent → ShellSession
  | .data t => { s with buffer := s.buffer ++ t }
  | .closed => { s with isActive := false }

/-- Deliver a list of channel events to a session, in order. -/
def deliverAll (s : ShellSession) (evs : List SessEvent) : ShellSession :=
  evs.foldl applyEvent s

/-- How the promise inside `handleReadOutput` resolved. -/
structure ReadResolution where
  /-- The value the promise resolved with. -/
  output : String
  /-- The session at the moment of resolution. -/
  sess : ShellSession
  /-- Events of the window delivered only after the resolution. -/
  pending : List SessEvent
  /-- The operation had to suspend (empty buffer at the call). -/
  suspended : Bool
  /-- The `once('data')` listener resolved it; false means the resolution
  came from the timer at the end of the full timeout window (or was
  immediate when `suspended` is also false). -/
  wokenByData : Bool
deriving DecidableEq, Repr

/-- The suspended wait of `handleReadOutput` (lines 1017-1031) over the
events the channel delivers during the timeout window: the
`once('data')` listener resolves at the first `data` event, with the
buffer as the data hook just left it; a `close` event is not listened
for, so it only mutates the session and the wait continues; when the
window is exhausted the `setTimeout` timer resolves with the
then-current buffer. -/
def awaitOutput (s : ShellSession) : List SessEvent → ReadResolution
  | [] => ⟨s.buffer, s, [], true, false⟩
  | .data t :: rest =>
    let s' := applyEvent s (.data t)
    ⟨s'.buffer, s', rest, true, true⟩
  | .closed :: rest => awaitOutput (applyEvent s .closed) rest

/-- The whole promise: `if (session.buffer)` resolves immediately with the
buffer and clears the timer; otherwise the wait `awaitOutput` runs. -/
def readPromise (s : ShellSession) (evs : List SessEvent) : ReadResolution :=
  if s.buffer.isEmpty then awaitOutput s evs else ⟨s.buffer, s, evs, false, false⟩

/-- `StartInteractiveShellSchema` after parsing (defaults applied). -/
structure StartShellParams where
  connectionId : String
  sessionId : String
  shell : String
  cols : Nat
  rows : Nat
deriving DecidableEq, Repr

/-- `handleStartInteractiveShell` (lines 893-956): connection lookup, then
the duplicate-session check, then `ssh.requestShell` (its outcome is the
`requestShell` parameter, yielding the channel token), then the session is
registered with an empty buffer, active, with the two hooks attached. -/
def handleStartInteractiveShell (st : ServerState) (p : StartShellParams)
    (requestShell : Except String Nat) : ServerState × Except McpError String :=
  match JSMap.get st.connectionPool p.connectionId with
  | none =>
    (st, .error ⟨.invalidParams,
      s!"Connection ID '{p.connectionId}' not found"⟩)
  | some ssh =>
    if JSMap.has st.shellSessions p.sessionId then
      (st, .error ⟨.invalidParams,
        s!"Session ID '{p.sessionId}' already exists"⟩)
    else
      match requestShell with
      | .error e =>
        (st, .error ⟨.internalError,
          "Failed to start interactive shell: " ++ e⟩)
      | .ok channel =>
        let session : ShellSession :=
          { shell := channel, ssh := ssh, buffer := "", isActive := true }
        ({ st with
           shellSessions := JSMap.set st.shellSessions p.sessionId session },
         .ok s!"Interactive shell session '{p.sessionId}' started successfully")

/-- `SendInputSchema` after parsing (`simulateTyping` defaulted to false). -/
structure SendInputParams where
  sessionId : String
  input : String
  simulateTyping : Bool
deriving DecidableEq, Repr

/-- The sequence of `session.shell.write` calls `handleSendInput` issues
(lines 976-986): one write per character of the input, each followed by a
cooperative 50-150 ms sleep, under typing simulation; one write of the
whole input otherwise. -/
def sendInputWrites (input : String) (simulateTyping : Bool) : List String :=
  if simulateTyping then input.data.map (fun c => String.singleton c)
  else [input]

/-- `handleSendInput` (lines 958-1002): session lookup, the
`!session.isActive` guard, then the writes; the session state itself is
not mutated.  The result carries the confirmation text and the write
trace issued on the channel. -/
def handleSendInput (st : ServerState) (p : SendInputParams) :
    ServerState × Except McpError (String × List String) :=
  match JSMap.get st.shellSessions p.sessionId with
  | none =>
    (st, .error ⟨.invalidParams, s!"Session ID '{p.sessionId}' not found"⟩)
  | some session =>
    if !session.isActive then
      (st, .error ⟨.invalidParams, s!"Session '{p.sessionId}' is not active"⟩)
    else
      (st, .ok (s!"Input sent to session '{p.sessionId}'",
        sendInputWrites p.input p.simulateTyping))

/-- `ReadOutputSchema` after parsing (`timeout` defaulted to 5000,
`clearBuffer` to true). -/
structure ReadOutputParams where
  sessionId : String
  timeout : Nat
  clearBuffer : Bool
deriving DecidableEq, Repr

/-- `handleReadOutput` (lines 1004-1053): session lookup, the awaited
promise `readPromise`, then — after the value is captured — the buffer is
reset to empty when `clearBuffer` is true (microtask, so no event can
interleave between capture and clear); events of the window that were
delivered after the resolution reach the session afterwards.  The source
wraps the captured text in a display message; the `Except` value here is
the captured text itself. -/
def handleReadOutput (st : ServerState) (p : ReadOutputParams)
    (evs : List SessEvent) : ServerState × Except McpError String :=
  match JSMap.get st.shellSessions p.sessionId with
  | none =>
    (st, .error ⟨.invalidParams, s!"Session ID '{p.sessionId}' not found"⟩)
  | some session =>
    let r := readPromise session evs
    let result := r.output
    let afterClear :=
      if p.clearBuffer then { r.sess with buffer := "" } else r.sess
    ({ st with shellSessions :=
        JSMap.set st.shellSessions p.sessionId (deliverAll afterClear r.pending) },
     .ok result)

/-- `handleCloseInteractiveShell` (lines 1055-1085): session lookup, then
`shell.close()` (outcome `closeChannel`), `isActive := false` and the map
delete; if `close()` throws, the `catch` wraps the error and no state
changes. -/
def handleCloseInteractiveShell (st : ServerState) (sessionId : String)
    (closeChannel : Except String Unit) : ServerState × Except McpError String :=
  match JSMap.get st.shellSessions sessionId with
  | none =>
    (st, .error ⟨.invalidParams, s!"Session ID '{sessionId}' not found"⟩)
  | some _session =>
    match closeChannel with
    | .error e =>
      (st, .error ⟨.internalError, "Failed to close session: " ++ e⟩)
    | .ok _ =>
      ({ st with shellSessions := JSMap.delete st.shellSessions sessionId },
       .ok s!"Interactive shell session '{sessionId}' closed successfully")

/-- One entry of the `credentials` array `handleListCredentials` builds
(lines 1130-1139): the secrets are masked to the truthiness booleans
`!!cred.password` and `!!cred.privateKeyPath`; no secret value and no
passphrase information is carried over. -/
structure MaskedCredential where
  credentialId : String
  host : String
  port : Nat
  username : String
  hasPassword : Bool
  hasPrivateKey : Bool
  createdAt : String
  lastUsed : String
deriving DecidableEq, Repr

/-- The masking of one stored credential. -/
def maskCredential (id : String) (cred : StoredCredential) : MaskedCredential :=
  { credentialId := id, host := cred.host, port := cred.port,
    username := cred.username,
    hasPassword := truthy cred.password,
    hasPrivateKey := truthy cred.privateKeyPath,
    createdAt := cred.createdAt, lastUsed := cred.lastUsed }

/-- One line of the rendered listing (lines 1146-1148). -/
def renderCredLine (c : MaskedCredential) : String :=
  let auth := if c.hasPassword then "password" else "key"
  s!"- {c.credentialId}: {c.username}@{c.host}:{c.port} ({auth}) - Last used: {c.lastUsed}"

/-- Join rendered lines with newlines, as `Array.prototype.join` does. -/
def joinLines : List String → String
  | [] => ""
  | [l] => l
  | l :: ls => l ++ "\n" ++ joinLines ls

/-- `handleListCredentials` (lines 1127-1153): the full rendered reply. -/
def handleListCredentials (st : ServerState) : String :=
  let credentials := st.credentialStore.map (fun p => maskCredential p.1 p.2)
  if credentials.length > 0 then
    "Saved credentials:\n" ++ joinLines (credentials.map renderCredLine)
  else
    "No saved credentials found"

/-- `ConnectWithCredentialSchema`. -/
structure ConnectWithCredentialParams where
  credentialId : String
  connectionId : String
deriving DecidableEq, Repr

/-- External effects of `handleConnectWithCredential`; `now` is the
`new Date().toISOString()` taken for the `lastUsed` update. -/
structure ConnectCredEffects where
  handle : NodeSSH
  readKey : Except String String
  connect : ConnectConfig → Except String Unit
  now : String

/-- The body of the `try` of `handleConnectWithCredential` (lines
1198-1241): same authentication branching as `handleSSHConnect` but from
the stored credential, and on success the pool/context insert followed by
the `lastUsed` update written back to the store. -/
def connectWithCredentialBody (st : ServerState)
    (p : ConnectWithCredentialParams) (credential : StoredCredential)
    (eff : ConnectCredEffects) : Except TryError ServerState :=
  let register : ServerState :=
    { st with
      connectionPool := JSMap.set st.connectionPool p.connectionId eff.handle,
      connectionContexts := JSMap.set st.connectionContexts p.connectionId
        ⟨eff.handle, none, none⟩ }
  let touch (st' : ServerState) : ServerState :=
    { st' with
      credentialStore := JSMap.set st'.credentialStore p.credentialId
        { credential with lastUsed := eff.now } }
  if truthy credential.privateKeyPath then
    match eff.readKey with
    | .error e => .error (.js e)
    | .ok privateKey =>
      match eff.connect (keyConfig credential.host credential.port
          credential.username privateKey credential.passphrase) with
      | .error e => .error (.js e)
      | .ok _ => .ok (touch register)
  else if truthy credential.password then
    match eff.connect (passwordConfig credential.host credential.port
        credential.username credential.password) with
    | .error e => .error (.js e)
    | .ok _ => .ok (touch register)
  else
    .error (.mcp ⟨.invalidParams,
      "Credential has neither password nor private key"⟩)

/-- `handleConnectWithCredential` (lines 1178-1248): duplicate-connection
check, credential lookup, then the `try` body whose `catch` wraps every
error — a thrown `McpError` included — as `InternalError` with the
`SSH connection failed:` prefix. -/
def handleConnectWithCredential (st : ServerState)
    (p : ConnectWithCredentialParams) (eff : ConnectCredEffects) :
    ServerState × Except McpError String :=
  if JSMap.has st.connectionPool p.connectionId then
    (st, .error ⟨.invalidParams,
      s!"Connection ID '{p.connectionId}' already exists"⟩)
  else
    match JSMap.get st.credentialStore p.credentialId with
    | none =>
      (st, .error ⟨.invalidParams,
        s!"Credential ID '{p.credentialId}' not found"⟩)
    | some credential =>
      match connectWithCredentialBody st p credential eff with
      | .ok st' =>
        (st', .ok s!"Successfully connected using saved credential '{p.credentialId}' (Connection ID: {p.connectionId})")
      | .error e =>
        (st, .error ⟨.internalError,
          "SSH connection failed: " ++ TryError.messageOf e⟩)

/-- Concatenation of a list of text chunks, the total text `T` a sequence
of writes or data events carries. -/
def concatTexts : List String → String
  | [] => ""
  | t :: ts => t ++ concatTexts ts

/-- Whether a channel event is a `data` event. -/
def SessEvent.isData : SessEvent → Bool
  | .data _ => true
  | .closed => false

theorem concatTexts_append (ts us : List String) :
    concatTexts (ts ++ us) = concatTexts ts ++ concatTexts us := by
  induction ts with
  | nil =>
    apply String.ext
    simp [concatTexts, String.data_append]
  | cons t ts ih =>
    simp [concatTexts, ih, String.append_assoc]

theorem concatTexts_map_singleton (l : List Char) :
    concatTexts (l.map (fun c => String.singleton c)) = String.mk l := by
  induction l with
  | nil => rfl
  | cons c l ih =>
    apply String.ext
    simp [concatTexts, ih, String.data_append, String.data_singleton]

theorem sendInputWrites_concat (input : String) (b : Bool) :
    concatTexts (sendInputWrites input b) = input := by
  cases b with
  | false =>
    apply String.ext
    simp [sendInputWrites, concatTexts, String.data_append]
  | true =>
    cases input with
    | mk l => simp [sendInputWrites, concatTexts_map_singleton]

theorem deliverAll_data (ts : List String) (s : ShellSession) :
    deliverAll s (ts.map SessEvent.data) =
      { s with buffer := s.buffer ++ concatTexts ts } := by
  induction ts generalizing s with
  | nil =>
    simp only [List.map_nil, deliverAll, List.foldl_nil, concatTexts]
    cases s with
    | mk sh ss b a =>
      simp only [ShellSession.mk.injEq, and_true, true_and]
      apply String.ext
      simp [String.data_append]
  | cons t ts ih =>
    simp only [List.map_cons, deliverAll, List.foldl_cons, applyEvent] at ih ⊢
    rw [ih]
    simp [concatTexts, String.append_assoc]

theorem buffer_deliverAll_closed (cs : List SessEvent) (s : ShellSession)
    (h : ∀ e ∈ cs, e = SessEvent.closed) :
    (deliverAll s cs).buffer = s.buffer := by
  induction cs generalizing s with
  | nil => rfl
  | cons e cs ih =>
    have he : e = SessEvent.closed := h e (by simp)
    subst he
    simp only [deliverAll, List.foldl_cons] at ih ⊢
    rw [ih _ (fun e hm => h e (by simp [hm]))]
    rfl

theorem awaitOutput_suspended (evs : List SessEvent) (s : ShellSession) :
    (awaitOutput s evs).suspended = true := by
  induction evs generalizing s with
  | nil => rfl
  | cons e evs ih =>
    cases e with
    | data t => rfl
    | closed => simpa [awaitOutput] using ih (applyEvent s .closed)

theorem awaitOutput_no_data (evs : List SessEvent) (s : ShellSession)
    (h : ∀ e ∈ evs, e = SessEvent.closed) :
    awaitOutput s evs = ⟨s.buffer, deliverAll s evs, [], true, false⟩ := by
  induction evs generalizing s with
  | nil => rfl
  | cons e evs ih =>
    have he : e = SessEvent.closed := h e (by simp)
    subst he
    rw [show awaitOutput s (SessEvent.closed :: evs) =
        awaitOutput (applyEvent s .closed) evs from rfl]
    rw [ih _ (fun e hm => h e (by simp [hm]))]
    simp [deliverAll, applyEvent]

theorem awaitOutput_first_data (cs : List SessEvent) (s : ShellSession)
    (t : String) (rest : List SessEvent) (h : ∀ e ∈ cs, e = SessEvent.closed) :
    awaitOutput s (cs ++ SessEvent.data t :: rest) =
      ⟨s.buffer ++ t, applyEvent (deliverAll s cs) (SessEvent.data t),
       rest, true, true⟩ := by
  induction cs generalizing s with
  | nil => simp [awaitOutput, applyEvent, deliverAll]
  | cons e cs ih =>
    have he : e = SessEvent.closed := h e (by simp)
    subst he
    rw [List.cons_append,
      show awaitOutput s (SessEvent.closed :: (cs ++ SessEvent.data t :: rest)) =
        awaitOutput (applyEvent s .closed) (cs ++ SessEvent.data t :: rest) from rfl]
    rw [ih _ (fun e hm => h e (by simp [hm]))]
    simp [deliverAll, applyEvent]

theorem awaitOutput_wokenByData (evs : List SessEvent) (s : ShellSession) :
    (awaitOutput s evs).wokenByData = evs.any SessEvent.isData := by
  induction evs generalizing s with
  | nil => rfl
  | cons e evs ih =>
    cases e with
    | data t => simp [awaitOutput, SessEvent.isData]
    | closed => simp [awaitOutput, SessEvent.isData, ih]

theorem readPromise_nil (s : ShellSession) :
    readPromise s [] = ⟨s.buffer, s, [], s.buffer.isEmpty, false⟩ := by
  by_cases h : s.buffer.isEmpty
  · simp [readPromise, h, awaitOutput]
  · simp only [Bool.not_eq_true] at h
    simp [readPromise, h]

/-- A sample stored credential (password present, no key). -/
def sampleCredential : StoredCredential :=
  ⟨"host1", 22, "user1", some "pw", none, none,
   "2024-01-01T00:00:00.000Z", "2024-01-02T00:00:00.000Z"⟩

/-- A sample active session with a non-empty buffer. -/
def sampleSession : ShellSession := ⟨5, 1, "hello", true⟩

/-- A sample populated server state. -/
def sampleState : ServerState :=
  { connectionPool := [("conn1", 1)],
    connectionContexts := [("conn1", ⟨1, none, none⟩)],
    credentialStore := [("cred1", sampleCredential)],
    shellSessions := [("sess1", sampleSession)] }

/-- Transport effects that all succeed. -/
def okEffects : ConnectEffects := ⟨7, .ok "KEYDATA", fun _ => .ok ()⟩

/-- C1: creating a connection, an interactive-shell session or a credential
under an id that is already registered fails on the duplicate-id check with
the AlreadyExists error (`InvalidParams`, message `... already exists`) and
returns the server state unchanged, so the first entry is exactly what it
was before the second call. -/
theorem duplicate_create_rejected (st : ServerState)
    (cp : ConnectParams) (ceff : ConnectEffects)
    (sp : StartShellParams) (ssh : NodeSSH) (reqShell : Except String Nat)
    (kp : SaveCredentialParams) (now : String)
    (hconn : JSMap.has st.connectionPool cp.connectionId = true)
    (hsessConn : JSMap.get st.connectionPool sp.connectionId = some ssh)
    (hsess : JSMap.has st.shellSessions sp.sessionId = true)
    (hcred : JSMap.has st.credentialStore kp.credentialId = true) :
    handleSSHConnect st cp ceff =
      (st, .error ⟨.invalidParams,
        s!"Connection ID '{cp.connectionId}' already exists"⟩) ∧
    handleStartInteractiveShell st sp reqShell =
      (st, .error ⟨.invalidParams,
        s!"Session ID '{sp.sessionId}' already exists"⟩) ∧
    handleSaveCredential st kp now =
      (st, .error ⟨.invalidParams,
        s!"Credential ID '{kp.credentialId}' already exists"⟩) := by
  refine ⟨?_, ?_, ?_⟩
  · simp [handleSSHConnect, hconn]
  · simp [handleStartInteractiveShell, hsessConn, hsess]
  · simp [handleSaveCredential, hcred]

/-- C1 at concrete inputs: re-creating the ids of `sampleState`. -/
theorem duplicate_create_rejected_witness :
    handleSSHConnect sampleState
      ⟨"h2", 22, "u2", some "pw2", none, none, "conn1"⟩ okEffects =
      (sampleState, .error ⟨.invalidParams,
        "Connection ID 'conn1' already exists"⟩) ∧
    handleStartInteractiveShell sampleState
      ⟨"conn1", "sess1", "/bin/bash", 80, 24⟩ (.ok 9) =
      (sampleState, .error ⟨.invalidParams,
        "Session ID 'sess1' already exists"⟩) ∧
    handleSaveCredential sampleState
      ⟨"cred1", "h2", 22, "u2", some "pw2", none, none⟩ "2024-03-01T00:00:00.000Z" =
      (sampleState, .error ⟨.invalidParams,
        "Credential ID 'cred1' already exists"⟩) :=
  duplicate_create_rejected sampleState
    ⟨"h2", 22, "u2", some "pw2", none, none, "conn1"⟩ okEffects
    ⟨"conn1", "sess1", "/bin/bash", 80, 24⟩ 1 (.ok 9)
    ⟨"cred1", "h2", 22, "u2", some "pw2", none, none⟩ "2024-03-01T00:00:00.000Z"
    rfl rfl rfl rfl

/-- C2: starting from a fresh (empty-buffer) session, after a sequence of
data events totaling text `T` with no intervening read, `ReadOutput` with
`clearBuffer = true` returns exactly `T`; the buffer is reset to empty only
after that value is captured, so the post-state holds the session with an
empty buffer and nothing else changed; a subsequent immediate `ReadOutput`
whose timeout window carries no new data returns the empty string. -/
theorem read_clear_returns_all_data (st : ServerState) (sid : String)
    (s0 : ShellSession) (ts : List String) (tmo tmo2 : Nat)
    (hb : s0.buffer = "")
    (hs : JSMap.get st.shellSessions sid =
      some (deliverAll s0 (ts.map SessEvent.data))) :
    (handleReadOutput st ⟨sid, tmo, true⟩ []).2 = .ok (concatTexts ts) ∧
    JSMap.get (handleReadOutput st ⟨sid, tmo, true⟩ []).1.shellSessions sid =
      some { s0 with buffer := "" } ∧
    (handleReadOutput (handleReadOutput st ⟨sid, tmo, true⟩ []).1
      ⟨sid, tmo2, true⟩ []).2 = .ok "" := by
  have hsN : deliverAll s0 (ts.map SessEvent.data) =
      { s0 with buffer := concatTexts ts } := by
    rw [deliverAll_data, hb]
    simp only [ShellSession.mk.injEq]
    refine ⟨trivial, trivial, ?_, trivial⟩
    apply String.ext
    simp [String.data_append]
  rw [hsN] at hs
  have h1 : handleReadOutput st ⟨sid, tmo, true⟩ [] =
      ({ st with shellSessions :=
          JSMap.set st.shellSessions sid { s0 with buffer := "" } },
       .ok (concatTexts ts)) := by
    simp [handleReadOutput, hs, readPromise_nil, deliverAll]
  refine ⟨by rw [h1], ?_, ?_⟩
  · rw [h1]
    exact JSMap.get_set_self _ _ _
  · rw [h1]
    have hget : JSMap.get
        (JSMap.set st.shellSessions sid { s0 with buffer := "" }) sid =
        some { s0 with buffer := "" } := JSMap.get_set_self _ _ _
    simp [handleReadOutput, hget, readPromise_nil]

/-- C2 at concrete inputs: two chunks `ab` and `cd` then a clearing read. -/
theorem read_clear_returns_all_data_witness :
    (handleReadOutput
      { sampleState with shellSessions :=
          [("sess1", deliverAll ⟨5, 1, "", true⟩
            ([ "ab", "cd" ].map SessEvent.data))] }
      ⟨"sess1", 5000, true⟩ []).2 = .ok (concatTexts ["ab", "cd"]) ∧
    JSMap.get (handleReadOutput
      { sampleState with shellSessions :=
          [("sess1", deliverAll ⟨5, 1, "", true⟩
            ([ "ab", "cd" ].map SessEvent.data))] }
      ⟨"sess1", 5000, true⟩ []).1.shellSessions "sess1" =
      some ⟨5, 1, "", true⟩ ∧
    (handleReadOutput (handleReadOutput
      { sampleState with shellSessions :=
          [("sess1", deliverAll ⟨5, 1, "", true⟩
            ([ "ab", "cd" ].map SessEvent.data))] }
      ⟨"sess1", 5000, true⟩ []).1 ⟨"sess1", 100, true⟩ []).2 = .ok "" :=
  read_clear_returns_all_data
    { sampleState with shellSessions :=
        [("sess1", deliverAll ⟨5, 1, "", true⟩ ([ "ab", "cd" ].map SessEvent.data))] }
    "sess1" ⟨5, 1, "", true⟩ ["ab", "cd"] 5000 100 rfl rfl

theorem string_empty_append (s : String) : "" ++ s = s := by
  apply String.ext
  simp [String.data_append]

/-- C3: `ReadOutput` on an existing session resolves immediately with the
current buffer when it is non-empty; otherwise it suspends, and resolves at
the first data event of the window — returning what is buffered at that
moment — or, when the window carries no data event, at the timeout,
returning the empty string. -/
theorem read_returns_buffered (st : ServerState) (sid : String)
    (s : ShellSession) (tmo : Nat) (cb : Bool) (evs cs rest : List SessEvent)
    (t : String) (hs : JSMap.get st.shellSessions sid = some s) :
    (s.buffer ≠ "" →
      (readPromise s evs).suspended = false ∧
      (handleReadOutput st ⟨sid, tmo, cb⟩ evs).2 = .ok s.buffer) ∧
    (s.buffer = "" →
      (readPromise s evs).suspended = true ∧
      ((∀ e ∈ evs, e = SessEvent.closed) →
        (handleReadOutput st ⟨sid, tmo, cb⟩ evs).2 = .ok "") ∧
      ((∀ e ∈ cs, e = SessEvent.closed) →
        evs = cs ++ SessEvent.data t :: rest →
        (handleReadOutput st ⟨sid, tmo, cb⟩ evs).2 = .ok t)) := by
  constructor
  · intro hne
    have he : s.buffer.isEmpty = false := by
      cases hhe : s.buffer.isEmpty
      · rfl
      · exact absurd ((String.isEmpty_iff s.buffer).mp hhe) hne
    have hrp : readPromise s evs = ⟨s.buffer, s, evs, false, false⟩ := by
      simp [readPromise, he]
    exact ⟨by rw [hrp], by simp [handleReadOutput, hs, hrp]⟩
  · intro hbe
    have he : s.buffer.isEmpty = true := (String.isEmpty_iff s.buffer).mpr hbe
    have hrp : readPromise s evs = awaitOutput s evs := by
      simp [readPromise, he]
    refine ⟨by rw [hrp]; exact awaitOutput_suspended evs s, ?_, ?_⟩
    · intro hall
      have hres := awaitOutput_no_data evs s hall
      simp [handleReadOutput, hs, hrp, hres, hbe]
    · intro hcs hsplit
      subst hsplit
      have hres := awaitOutput_first_data cs s t rest hcs
      simp [handleReadOutput, hs, hrp, hres, hbe, string_empty_append]

/-- C3 at concrete inputs: an empty-buffer session whose window delivers a
close and then the data chunk `ok`. -/
theorem read_returns_buffered_witness :
    ((⟨5, 1, "", true⟩ : ShellSession).buffer ≠ "" →
      (readPromise ⟨5, 1, "", true⟩ [SessEvent.closed, SessEvent.data "ok"]).suspended = false ∧
      (handleReadOutput { sampleState with shellSessions := [("s0", ⟨5, 1, "", true⟩)] }
        ⟨"s0", 5000, true⟩ [SessEvent.closed, SessEvent.data "ok"]).2 =
        .ok (⟨5, 1, "", true⟩ : ShellSession).buffer) ∧
    ((⟨5, 1, "", true⟩ : ShellSession).buffer = "" →
      (readPromise ⟨5, 1, "", true⟩ [SessEvent.closed, SessEvent.data "ok"]).suspended = true ∧
      ((∀ e ∈ [SessEvent.closed, SessEvent.data "ok"], e = SessEvent.closed) →
        (handleReadOutput { sampleState with shellSessions := [("s0", ⟨5, 1, "", true⟩)] }
          ⟨"s0", 5000, true⟩ [SessEvent.closed, SessEvent.data "ok"]).2 = .ok "") ∧
      ((∀ e ∈ [SessEvent.closed], e = SessEvent.closed) →
        [SessEvent.closed, SessEvent.data "ok"] =
          [SessEvent.closed] ++ SessEvent.data "ok" :: [] →
        (handleReadOutput { sampleState with shellSessions := [("s0", ⟨5, 1, "", true⟩)] }
          ⟨"s0", 5000, true⟩ [SessEvent.closed, SessEvent.data "ok"]).2 = .ok "ok")) :=
  read_returns_buffered
    { sampleState with shellSessions := [("s0", ⟨5, 1, "", true⟩)] }
    "s0" ⟨5, 1, "", true⟩ 5000 true
    [SessEvent.closed, SessEvent.data "ok"] [SessEvent.closed] [] "ok" rfl

/-- C10: `ReadOutput` with `clearBuffer = false` returns the buffer and
leaves the server state — the session's buffer included — unchanged, so an
immediate second read with no intervening data events returns the same
text. -/
theorem read_no_clear_leaves_buffer (st : ServerState) (sid : String)
    (s : ShellSession) (tmo tmo2 : Nat)
    (hs : JSMap.get st.shellSessions sid = some s) :
    handleReadOutput st ⟨sid, tmo, false⟩ [] = (st, .ok s.buffer) ∧
    (handleReadOutput (handleReadOutput st ⟨sid, tmo, false⟩ []).1
      ⟨sid, tmo2, false⟩ []).2 = .ok s.buffer := by
  have h1 : handleReadOutput st ⟨sid, tmo, false⟩ [] = (st, .ok s.buffer) := by
    simp [handleReadOutput, hs, readPromise_nil, deliverAll,
      JSMap.set_eq_of_get _ _ _ hs]
  refine ⟨h1, ?_⟩
  rw [h1]
  simp [handleReadOutput, hs, readPromise_nil]

/-- C10 at concrete inputs: the non-empty `sampleSession` buffer read twice
without clearing. -/
theorem read_no_clear_leaves_buffer_witness :
    handleReadOutput sampleState ⟨"sess1", 5000, false⟩ [] =
      (sampleState, .ok sampleSession.buffer) ∧
    (handleReadOutput (handleReadOutput sampleState ⟨"sess1", 5000, false⟩ []).1
      ⟨"sess1", 100, false⟩ []).2 = .ok sampleSession.buffer :=
  read_no_clear_leaves_buffer sampleState "sess1" sampleSession 5000 100 rfl

/-- C6 as stated is false at a concrete input: a fresh empty-buffer session
whose window delivers only the unexpected close.  The pending read is not
woken — it consumes the whole window (`pending = []`) and resolves by the
timer (`wokenByData = false`), i.e. it waits out its full timeout, because
`handleReadOutput` subscribes only to `once('data')`, never to `close`. -/
theorem close_does_not_wake_pending_read :
    (readPromise ⟨5, 1, "", true⟩ [SessEvent.closed]).suspended = true ∧
    (readPromise ⟨5, 1, "", true⟩ [SessEvent.closed]).wokenByData = false ∧
    (readPromise ⟨5, 1, "", true⟩ [SessEvent.closed]).pending = [] := by
  decide

/-- C6 amended: the on-close hook does set `isActive` to false and does
emit on the notification channel, but a suspended `ReadOutput` is woken
early exactly when a data event arrives; the close signal never wakes it,
so after a close alone the read waits out its full timeout. -/
theorem close_signal_amended (s : ShellSession) (evs : List SessEvent)
    (hb : s.buffer = "") :
    (applyEvent s SessEvent.closed).isActive = false ∧
    ((readPromise s evs).wokenByData = true ↔ evs.any SessEvent.isData = true) := by
  have he : s.buffer.isEmpty = true := (String.isEmpty_iff s.buffer).mpr hb
  refine ⟨rfl, ?_⟩
  simp [readPromise, he, awaitOutput_wokenByData]

/-- C6 amended, at concrete inputs: a close alone does not wake the read,
a data event does. -/
theorem close_signal_amended_witness :
    ((applyEvent ⟨5, 1, "", true⟩ SessEvent.closed).isActive = false ∧
      ((readPromise ⟨5, 1, "", true⟩ [SessEvent.closed, SessEvent.data "x"]).wokenByData = true ↔
        [SessEvent.closed, SessEvent.data "x"].any SessEvent.isData = true)) :=
  close_signal_amended ⟨5, 1, "", true⟩ [SessEvent.closed, SessEvent.data "x"] rfl

/-- C7: after the underlying channel closes unexpectedly (the on-close hook
fires on the registered session), the entry remains in the registry; a
subsequent `SendInput` fails with the not-active error and changes nothing,
while a subsequent `ReadOutput` still succeeds, drains the remaining
buffer, and leaves the inactive session registered with an empty buffer. -/
theorem inactive_session_remains_readable (st st' : ServerState)
    (sid : String) (s : ShellSession) (input : String) (simT : Bool)
    (tmo : Nat) (_hs : JSMap.get st.shellSessions sid = some s)
    (hst : st' = { st with shellSessions := JSMap.set st.shellSessions sid (applyEvent s SessEvent.closed) }) :
    JSMap.has st'.shellSessions sid = true ∧
    handleSendInput st' ⟨sid, input, simT⟩ =
      (st', .error ⟨.invalidParams, s!"Session '{sid}' is not active"⟩) ∧
    (handleReadOutput st' ⟨sid, tmo, true⟩ []).2 = .ok s.buffer ∧
    JSMap.get (handleReadOutput st' ⟨sid, tmo, true⟩ []).1.shellSessions sid =
      some { s with buffer := "", isActive := false } := by
  subst hst
  refine ⟨JSMap.has_of_get _ _ _ (JSMap.get_set_self _ _ _), ?_, ?_, ?_⟩
  · simp [handleSendInput, JSMap.get_set_self, applyEvent]
  · simp [handleReadOutput, JSMap.get_set_self, applyEvent, readPromise_nil,
      deliverAll]
  · simp [handleReadOutput, JSMap.get_set_self, applyEvent, readPromise_nil,
      deliverAll]

/-- The sample state after the channel of `sess1` closed unexpectedly. -/
def closedSampleState : ServerState :=
  { sampleState with
    shellSessions := JSMap.set sampleState.shellSessions "sess1"
      (applyEvent sampleSession SessEvent.closed) }

/-- C7 at concrete inputs: `sampleSession` degraded by an unexpected
close keeps its entry, rejects input, and still drains `hello`. -/
theorem inactive_session_remains_readable_witness :
    JSMap.has closedSampleState.shellSessions "sess1" = true ∧
    handleSendInput closedSampleState ⟨"sess1", "ls\n", false⟩ =
      (closedSampleState,
       .error ⟨.invalidParams, "Session 'sess1' is not active"⟩) ∧
    (handleReadOutput closedSampleState ⟨"sess1", 5000, true⟩ []).2 =
      .ok sampleSession.buffer ∧
    JSMap.get (handleReadOutput closedSampleState
      ⟨"sess1", 5000, true⟩ []).1.shellSessions "sess1" =
      some { sampleSession with buffer := "", isActive := false } :=
  inactive_session_remains_readable sampleState closedSampleState "sess1"
    sampleSession "ls\n" false 5000 rfl rfl

/-- C8: for an active session, `SendInput` with `simulateTyping = true`
issues one channel write per character in input order, and with
`simulateTyping = false` a single write of the whole text; both succeed
without touching the state, and the concatenation of the per-character
writes equals the single write — the delivered content and order are
identical, only the timing differs. -/
theorem simulate_typing_preserves_content (st : ServerState) (sid : String)
    (s : ShellSession) (input : String)
    (hs : JSMap.get st.shellSessions sid = some s)
    (hact : s.isActive = true) :
    handleSendInput st ⟨sid, input, true⟩ =
      (st, .ok (s!"Input sent to session '{sid}'",
        input.data.map (fun c => String.singleton c))) ∧
    handleSendInput st ⟨sid, input, false⟩ =
      (st, .ok (s!"Input sent to session '{sid}'", [input])) ∧
    concatTexts (sendInputWrites input true) =
      concatTexts (sendInputWrites input false) ∧
    concatTexts (sendInputWrites input true) = input := by
  refine ⟨?_, ?_, ?_, sendInputWrites_concat input true⟩
  · simp [handleSendInput, hs, hact, sendInputWrites]
  · simp [handleSendInput, hs, hact, sendInputWrites]
  · rw [sendInputWrites_concat, sendInputWrites_concat]

/-- C8 at concrete inputs: the text `su\n` typed both ways. -/
theorem simulate_typing_preserves_content_witness :
    handleSendInput sampleState ⟨"sess1", "su\n", true⟩ =
      (sampleState, .ok ("Input sent to session 'sess1'",
        ("su\n".data.map (fun c => String.singleton c)))) ∧
    handleSendInput sampleState ⟨"sess1", "su\n", false⟩ =
      (sampleState, .ok ("Input sent to session 'sess1'", ["su\n"])) ∧
    concatTexts (sendInputWrites "su\n" true) =
      concatTexts (sendInputWrites "su\n" false) ∧
    concatTexts (sendInputWrites "su\n" true) = "su\n" :=
  simulate_typing_preserves_content sampleState "sess1" sampleSession
    "su\n" rfl rfl

/-- Agreement of two stored credentials on everything `List()` may reveal:
the public fields, and the truthiness (JavaScript `!!`) of the password and
private-key fields; the secret values themselves — password, key path,
passphrase — are unconstrained. -/
def credLowEq (c₁ c₂ : StoredCredential) : Prop :=
  c₁.host = c₂.host ∧ c₁.port = c₂.port ∧ c₁.username = c₂.username ∧
  c₁.createdAt = c₂.createdAt ∧ c₁.lastUsed = c₂.lastUsed ∧
  truthy c₁.password = truthy c₂.password ∧
  truthy c₁.privateKeyPath = truthy c₂.privateKeyPath

theorem maskCredential_eq_of_lowEq (id : String) (c₁ c₂ : StoredCredential)
    (h : credLowEq c₁ c₂) : maskCredential id c₁ = maskCredential id c₂ := by
  obtain ⟨h1, h2, h3, h4, h5, h6, h7⟩ := h
  simp [maskCredential, h1, h2, h3, h4, h5, h6, h7]

theorem masked_map_eq_of_forall₂ (m₁ m₂ : JSMap StoredCredential)
    (h : List.Forall₂ (fun p q => p.1 = q.1 ∧ credLowEq p.2 q.2) m₁ m₂) :
    m₁.map (fun p => maskCredential p.1 p.2) =
      m₂.map (fun p => maskCredential p.1 p.2) := by
  induction h with
  | nil => rfl
  | cons hpq _ ih =>
    obtain ⟨hid, hlow⟩ := hpq
    simp only [List.map_cons, ih, List.cons.injEq, and_true]
    rw [hid]
    exact maskCredential_eq_of_lowEq _ _ _ hlow

/-- C9 as stated is false at a concrete input: two stores whose single
entries agree on every public field and on which secret fields are
*present* (both passwords are supplied strings, both key paths equal) and
differ only in the stored password value, yet `List()` renders them
differently — the mask is the truthiness `!!cred.password`, which
distinguishes the present-but-empty password from a non-empty one. -/
theorem list_credentials_presence_counterexample :
    handleListCredentials
      ⟨[], [], [("c", ⟨"h", 22, "u", some "", some "/k", none, "t0", "t1"⟩)], []⟩ ≠
    handleListCredentials
      ⟨[], [], [("c", ⟨"h", 22, "u", some "x", some "/k", none, "t0", "t1"⟩)], []⟩ := by
  decide

/-- C9 amended: `List()` depends only on the public fields and on the
truthiness of the password and private-key fields.  For any two stores
agreeing entrywise on those, however their actual password, key-path and
passphrase values differ, the rendered listing is identical — no secret
value ever appears in it. -/
theorem list_credentials_noninterference (st₁ st₂ : ServerState)
    (h : List.Forall₂ (fun p q => p.1 = q.1 ∧ credLowEq p.2 q.2)
      st₁.credentialStore st₂.credentialStore) :
    handleListCredentials st₁ = handleListCredentials st₂ := by
  have hm := masked_map_eq_of_forall₂ _ _ h
  simp only [handleListCredentials, hm]

/-- C9 amended, at concrete inputs: stores with different passwords,
key paths and passphrases render the same listing. -/
theorem list_credentials_noninterference_witness :
    handleListCredentials
      ⟨[], [], [("c", ⟨"h", 22, "u", some "secretA", some "/keys/a", some "ppA", "t0", "t1"⟩)], []⟩ =
    handleListCredentials
      ⟨[], [], [("c", ⟨"h", 22, "u", some "secretB", some "/keys/b", none, "t0", "t1"⟩)], []⟩ :=
  list_credentials_noninterference
    ⟨[], [], [("c", ⟨"h", 22, "u", some "secretA", some "/keys/a", some "ppA", "t0", "t1"⟩)], []⟩
    ⟨[], [], [("c", ⟨"h", 22, "u", some "secretB", some "/keys/b", none, "t0", "t1"⟩)], []⟩
    (List.Forall₂.cons
      ⟨rfl, rfl, rfl, rfl, rfl, rfl, rfl, rfl⟩
      List.Forall₂.nil)

/-- C4 as stated is false at concrete inputs.  First: a call supplying both
a password and a private-key path does not fail with `InvalidParams` — the
key branch wins, the password is ignored, and the call succeeds.  Second:
a call supplying neither does fail without mutating state, but the
`InvalidParams` throw happens inside the `try`, whose catch-all rewraps it,
so the surfaced error is `InternalError` with the transport-failure prefix
— the code the claim reserves for wrapped transport errors. -/
theorem open_auth_counterexample :
    (handleSSHConnect ⟨[], [], [], []⟩
      ⟨"h", 22, "u", some "pw", some "/key", none, "a"⟩ okEffects).2 =
      .ok "Successfully connected to h:22 as u (Connection ID: a)" ∧
    handleSSHConnect ⟨[], [], [], []⟩
      ⟨"h", 22, "u", none, none, none, "a"⟩ okEffects =
      (⟨[], [], [], []⟩,
       .error ⟨.internalError,
        "SSH connection failed: MCP error -32602: Either password or privateKeyPath must be provided"⟩) :=
  ⟨rfl, rfl⟩

/-- Transport effects whose connect attempt is refused. -/
def failEffects : ConnectEffects := ⟨7, .ok "KEYDATA", fun _ => .error "ECONNREFUSED"⟩

/-- C4 amended: `Open` with a fresh id and neither auth field truthy fails
immediately without mutating any registry state, but the error surfaces as
the wrapped `InternalError` (`SSH connection failed: MCP error -32602:
...`), not as a bare `InvalidParams`; with a truthy private-key path the
password is ignored entirely (the call behaves exactly as without it)
rather than failing; and a transport refusal is wrapped as the
ConnectionFailed error. -/
theorem open_auth_validation_amended (st : ServerState)
    (p₁ p₂ p₃ : ConnectParams) (eff₁ eff₂ eff₃ : ConnectEffects) (e : String)
    (hdup₁ : JSMap.has st.connectionPool p₁.connectionId = false)
    (hk₁ : truthy p₁.privateKeyPath = false)
    (hp₁ : truthy p₁.password = false)
    (hdup₂ : JSMap.has st.connectionPool p₂.connectionId = false)
    (hk₂ : truthy p₂.privateKeyPath = true)
    (hdup₃ : JSMap.has st.connectionPool p₃.connectionId = false)
    (hk₃ : truthy p₃.privateKeyPath = false)
    (hp₃ : truthy p₃.password = true)
    (hc₃ : eff₃.connect (passwordConfig p₃.host p₃.port p₃.username p₃.password) =
      .error e) :
    handleSSHConnect st p₁ eff₁ =
      (st, .error ⟨.internalError,
        "SSH connection failed: MCP error -32602: Either password or privateKeyPath must be provided"⟩) ∧
    handleSSHConnect st p₂ eff₂ =
      handleSSHConnect st { p₂ with password := none } eff₂ ∧
    handleSSHConnect st p₃ eff₃ =
      (st, .error ⟨.internalError, "SSH connection failed: " ++ e⟩) := by
  refine ⟨?_, ?_, ?_⟩
  · have hbody : sshConnectBody st p₁ eff₁ =
        .error (.mcp ⟨.invalidParams,
          "Either password or privateKeyPath must be provided"⟩) := by
      simp [sshConnectBody, hk₁, hp₁]
    simp only [handleSSHConnect, hdup₁, Bool.false_eq_true, if_false, hbody]
    rfl
  · simp [handleSSHConnect, hdup₂, sshConnectBody, hk₂]
  · have hbody : sshConnectBody st p₃ eff₃ = .error (.js e) := by
      simp [sshConnectBody, hk₃, hp₃, hc₃]
    simp only [handleSSHConnect, hdup₃, Bool.false_eq_true, if_false, hbody]
    rfl

/-- C4 amended, at concrete inputs: no auth, key-plus-password, and a
refused transport. -/
theorem open_auth_validation_amended_witness :
    handleSSHConnect ⟨[], [], [], []⟩
      ⟨"h", 22, "u", none, none, none, "a"⟩ okEffects =
      (⟨[], [], [], []⟩,
       .error ⟨.internalError,
        "SSH connection failed: MCP error -32602: Either password or privateKeyPath must be provided"⟩) ∧
    handleSSHConnect ⟨[], [], [], []⟩
      ⟨"h", 22, "u", some "pw", some "/key", none, "b"⟩ okEffects =
      handleSSHConnect ⟨[], [], [], []⟩
        ⟨"h", 22, "u", none, some "/key", none, "b"⟩ okEffects ∧
    handleSSHConnect ⟨[], [], [], []⟩
      ⟨"h", 22, "u", some "pw", none, none, "c"⟩ failEffects =
      (⟨[], [], [], []⟩,
       .error ⟨.internalError, "SSH connection failed: ECONNREFUSED"⟩) :=
  open_auth_validation_amended ⟨[], [], [], []⟩
    ⟨"h", 22, "u", none, none, none, "a"⟩
    ⟨"h", 22, "u", some "pw", some "/key", none, "b"⟩
    ⟨"h", 22, "u", some "pw", none, none, "c"⟩
    okEffects okEffects failEffects "ECONNREFUSED"
    rfl rfl rfl rfl rfl rfl rfl rfl rfl

/-- C5 as stated is false at a concrete input: when the transport release
throws, the error is not swallowed — it escapes the unguarded
`ssh.dispose()` call, the dispatcher wraps it, and the connection entry is
still present afterwards; the entry is not removed and the operation does
not report success. -/
theorem disconnect_dispose_error_counterexample :
    handleSSHDisconnect ⟨[("a", 1)], [("a", ⟨1, none, none⟩)], [], []⟩ "a"
      (.error "boom") =
      (⟨[("a", 1)], [("a", ⟨1, none, none⟩)], [], []⟩,
       .error ⟨.internalError, "Tool execution failed: boom"⟩) ∧
    JSMap.has ((⟨[("a", 1)], [("a", ⟨1, none, none⟩)], [], []⟩ :
      ServerState)).connectionPool "a" = true :=
  ⟨rfl, rfl⟩

/-- C5 amended: `Close(id)` on a registered id removes the entry (and its
context) and reports success when the transport release succeeds; when
`dispose` throws, the error propagates — wrapped by the dispatcher's
catch-all — and the registry is left untouched, the entry still present. -/
theorem disconnect_amended (st : ServerState) (id : String) (ssh : NodeSSH)
    (e : String) (h : JSMap.get st.connectionPool id = some ssh) :
    handleSSHDisconnect st id (.ok ()) =
      ({ st with
         connectionPool := JSMap.delete st.connectionPool id,
         connectionContexts := JSMap.delete st.connectionContexts id },
       .ok s!"Disconnected from {id}") ∧
    handleSSHDisconnect st id (.error e) =
      (st, .error ⟨.internalError, "Tool execution failed: " ++ e⟩) := by
  constructor
  · simp [handleSSHDisconnect, h]
  · simp [handleSSHDisconnect, h]

/-- C5 amended, at concrete inputs: disconnecting `conn1` of
`sampleState` with a clean and with a throwing dispose. -/
theorem disconnect_amended_witness :
    handleSSHDisconnect sampleState "conn1" (.ok ()) =
      ({ sampleState with connectionPool := [], connectionContexts := [] },
       .ok "Disconnected from conn1") ∧
    handleSSHDisconnect sampleState "conn1" (.error "boom") =
      (sampleState, .error ⟨.internalError, "Tool execution failed: boom"⟩) :=
  disconnect_amended sampleState "conn1" 1 "boom" rfl

end McpSsh
